import Mathlib

/-!
Shallow embedding of `src/chrono_chat/core.py` (class `Message` and class
`MemCore`), together with theorems checking the specification's claims
against it.

Modelling conventions:
* Python strings are `String`; optional arguments defaulting to `None` are
  `Option String`; the integer `max_history_size` and `max_messages` are
  `Nat` (the spec restricts them to nonnegative values).
* Python exceptions are explicit: every mutating method returns
  `MemCore × Option PyError` — the state of the (in-place mutated) object as
  the caller sees it after the call, and the exception if one was raised.
  This keeps the state that a raising method leaves behind observable, which
  the error-handling claims need.
* `Message.__init__` can itself raise (see `Message.init` below), so it
  returns `Except PyError Message`; in Python a raising constructor leaves
  the caller with no object, so no partial `Message` state is modelled.
* The `threading.Lock` and the `logging` call are concurrency/observability
  side effects with no effect on the sequential state and are not modelled.
-/

set_option autoImplicit false

/-- Python exceptions raised by the code paths modelled here, one constructor
per raise site: the `ValueError` in `add_message` (invalid role), the
`ValueError` in `add_custom_message` (role not registered), the `ValueError`
in `register_role` (default role), the `AttributeError` raised by
`datetime.now(datetime.timezone.utc)` in `Message.__init__`, and the
`IndexError` raised by `list.pop(0)` on an empty list in `add_message`. -/
inductive PyError where
  | invalidRole (role : Option String)
  | roleNotRegistered (role : String)
  | invalidOperation (role : String)
  | attributeError
  | indexError
  deriving DecidableEq

/-- The fields set by `Message.__init__`, in source order:
`role`, `content`, `agent_id`, `agent_name`, `model`, `vendor`, `timestamp`.
The `role` parameter defaults to `None`, hence `Option String`; `timestamp`
holds the string stored when construction succeeds. -/
structure Message where
  role : Option String
  content : String
  agent_id : Option String
  agent_name : Option String
  model : Option String
  vendor : Option String
  timestamp : String
  deriving DecidableEq

/-- Embeds `Message.__init__(content, role=None, agent_id=None, agent_name=None,
model=None, vendor=None, timestamp=None)`. The body runs
`self.timestamp = timestamp or datetime.now(datetime.timezone.utc).isoformat()`:
when `timestamp` is falsy (`None` or the empty string) the default branch
evaluates `datetime.timezone`, which raises `AttributeError`, because the
module does `from datetime import datetime` — binding the *class* `datetime`,
which has no `timezone` attribute (the `timezone` type lives in the `datetime`
*module*). So construction succeeds exactly when a truthy timestamp is
supplied, and then stores the arguments unchanged. -/
def Message.init (content : String) (role : Option String)
    (agent_id agent_name model vendor : Option String)
    (timestamp : Option String) : Except PyError Message :=
  match timestamp with
  | some t =>
      if t = "" then Except.error PyError.attributeError
      else Except.ok ⟨role, content, agent_id, agent_name, model, vendor, t⟩
  | none => Except.error PyError.attributeError

/-- Embeds the class constant `MemCore._DEFAULT_ROLES = {"system", "user", "assistant"}`. -/
def DEFAULT_ROLES : List String := ["system", "user", "assistant"]

/-- The state of a `MemCore` object: `self.messages`, `self.max_history_size`
and `self._roles`. The Python set `_roles` is modelled as a duplicate-free
list; only membership and idempotent insertion are used. -/
structure MemCore where
  messages : List Message
  max_history_size : Nat
  roles : List String
  deriving DecidableEq

/-- The membership test `message.role in self._roles` of `add_message`
(a `None` role is a member of no set of strings). -/
def roleAllowed (roles : List String) : Option String → Bool
  | some r => decide (r ∈ roles)
  | none => false

/-- Embeds `MemCore.add_message(message)`: raise `ValueError` (invalid role)
if `message.role not in self._roles`; otherwise, under the lock, if
`len(self.messages) >= self.max_history_size` run `self.messages.pop(0)`
(which raises `IndexError` on an empty list and otherwise removes the head),
then append `message`. -/
def MemCore.add_message (s : MemCore) (message : Message) : MemCore × Option PyError :=
  if roleAllowed s.roles message.role then
    if s.messages.length ≥ s.max_history_size then
      if s.messages.isEmpty then (s, some PyError.indexError)
      else (⟨s.messages.tail ++ [message], s.max_history_size, s.roles⟩, none)
    else (⟨s.messages ++ [message], s.max_history_size, s.roles⟩, none)
  else (s, some (PyError.invalidRole message.role))

/-- Embeds `MemCore._add_message(role, content, agent_id=None, agent_name=None,
model=None, vendor=None, timestamp=None)`. The source constructs
`Message(role, content, agent_id, agent_name, model, vendor, timestamp)`,
but `Message.__init__` declares its parameters as `(content, role, ...)`, so
positionally `role` lands in the `content` field and `content` lands in the
`role` field of the constructed message. -/
def MemCore._add_message (s : MemCore) (role content : String)
    (agent_id agent_name model vendor timestamp : Option String) :
    MemCore × Option PyError :=
  match Message.init role (some content) agent_id agent_name model vendor timestamp with
  | Except.error e => (s, some e)
  | Except.ok message => s.add_message message

/-- Embeds `MemCore.add_user_message(content, ...)`. -/
def MemCore.add_user_message (s : MemCore) (content : String)
    (agent_id agent_name model vendor timestamp : Option String) :
    MemCore × Option PyError :=
  s._add_message "user" content agent_id agent_name model vendor timestamp

/-- Embeds `MemCore.add_assistant_message(content, ...)`. -/
def MemCore.add_assistant_message (s : MemCore) (content : String)
    (agent_id agent_name model vendor timestamp : Option String) :
    MemCore × Option PyError :=
  s._add_message "assistant" content agent_id agent_name model vendor timestamp

/-- Embeds `MemCore.add_custom_message(role, content, ...)`: raise `ValueError`
(role not registered) if `role not in self._roles`, otherwise forward to
`_add_message`. -/
def MemCore.add_custom_message (s : MemCore) (role content : String)
    (agent_id agent_name model vendor timestamp : Option String) :
    MemCore × Option PyError :=
  if role ∈ s.roles then
    s._add_message role content agent_id agent_name model vendor timestamp
  else (s, some (PyError.roleNotRegistered role))

/-- Embeds `MemCore.register_role(role)`: raise `ValueError` (invalid
operation) if `role in MemCore._DEFAULT_ROLES`, otherwise `self._roles.add(role)`
(idempotent set insertion). -/
def MemCore.register_role (s : MemCore) (role : String) : MemCore × Option PyError :=
  if role ∈ DEFAULT_ROLES then (s, some (PyError.invalidOperation role))
  else
    (⟨s.messages, s.max_history_size,
      if role ∈ s.roles then s.roles else s.roles ++ [role]⟩, none)

/-- Embeds `MemCore.__init__(system_message=None, max_history_size=1000)`:
start with an empty message list and the default role set; if
`system_message` is truthy, run `self._add_message("system", system_message,
None, None, None, None)`. -/
def MemCore.init (system_message : Option String) (max_history_size : Nat) :
    MemCore × Option PyError :=
  let s : MemCore := ⟨[], max_history_size, DEFAULT_ROLES⟩
  match system_message with
  | some m =>
      if m = "" then (s, none)
      else s._add_message "system" m none none none none none
  | none => (s, none)

/-- Embeds `MemCore.get_last_message()`: `self.messages[-1]` if nonempty else `None`. -/
def MemCore.get_last_message (s : MemCore) : Option Message :=
  s.messages.getLast?

/-- Embeds `MemCore.get_messages()`. -/
def MemCore.get_messages (s : MemCore) : List Message :=
  s.messages

/-- One `{"role": ..., "content": ...}` dict produced by `get_messages_for_api`. -/
structure ApiMessage where
  role : String
  content : String
  deriving DecidableEq

/-- The per-message role computation of the loop in `get_messages_for_api`:
`role = message.role if message.role in {"system", "assistant"} else "user"`
(a `None` role is not in the set, hence becomes `"user"`). -/
def effectiveRole (message : Message) : String :=
  match message.role with
  | some r => if r = "system" ∨ r = "assistant" then r else "user"
  | none => "user"

/-- One iteration of the loop in `get_messages_for_api`, acting on the pair
`(api_messages, system_message)`: remember the first message whose effective
role is `"system"`, and append `{role, content}` for every message whose
effective role is not `"system"`. -/
def apiScanStep (acc : List ApiMessage × Option Message) (message : Message) :
    List ApiMessage × Option Message :=
  (if effectiveRole message ≠ "system"
     then acc.1 ++ [ApiMessage.mk (effectiveRole message) message.content]
     else acc.1,
   if effectiveRole message = "system" then
     match acc.2 with
     | none => some message
     | some m => some m
   else acc.2)

/-- Embeds `MemCore.get_messages_for_api(max_messages=None)`: run the scan
loop over `self.messages`; if `max_messages` is truthy (not `None`, not `0`)
and the accumulated list is longer, keep the slice `[-max_messages:]`
(the last `max_messages` entries); finally, if a system message was recorded
and no entry of the list has role `"system"`, insert
`{"role": "system", "content": system_message.content}` at the front. -/
def MemCore.get_messages_for_api (s : MemCore) (max_messages : Option Nat) :
    List ApiMessage :=
  let scan := s.messages.foldl apiScanStep ([], none)
  let api_messages :=
    match max_messages with
    | some n =>
        if n ≠ 0 then
          if scan.1.length > n then scan.1.drop (scan.1.length - n) else scan.1
        else scan.1
    | none => scan.1
  match scan.2 with
  | some m =>
      if api_messages.any (fun msg => decide (msg.role = "system")) then api_messages
      else ApiMessage.mk "system" m.content :: api_messages
  | none => api_messages

/-- Embeds `MemCore.reset(system_message=None)`: set `self.messages = []`
first, then, if `system_message` is truthy, run
`self._add_message("system", system_message, None, None, None, None)`.
Note the clearing happens before the internal add, so a raising add leaves
the store emptied. -/
def MemCore.reset (s : MemCore) (system_message : Option String) :
    MemCore × Option PyError :=
  let s1 : MemCore := ⟨[], s.max_history_size, s.roles⟩
  match system_message with
  | some m =>
      if m = "" then (s1, none)
      else s1._add_message "system" m none none none none none
  | none => (s1, none)

/-- A sequence of `add_message` calls performed in order, stopping at the
first raised error (as a sequence of Python statements would). -/
def addAll (s : MemCore) : List Message → MemCore × Option PyError
  | [] => (s, none)
  | m :: rest =>
      match (s.add_message m).2 with
      | none => addAll (s.add_message m).1 rest
      | some e => ((s.add_message m).1, some e)

/-- Spec-side definition (from the spec's words): the API entries of the
non-system messages, in original order, each with its effective role —
"every role other than system and assistant is normalized to user" and
system entries are excluded from the main list. -/
def apiNonSystem (msgs : List Message) : List ApiMessage :=
  msgs.filterMap (fun m =>
    if effectiveRole m = "system" then none
    else some (ApiMessage.mk (effectiveRole m) m.content))

/-- Spec-side definition: the first message whose (effective, equivalently
original) role is `"system"`. -/
def firstSystem (msgs : List Message) : Option Message :=
  msgs.find? (fun m => decide (effectiveRole m = "system"))

/-- Spec-side definition: the last `n` entries of `l`, dropping oldest first,
kept whole when the list is not longer than `n`. -/
def lastWindow (n : Nat) (l : List ApiMessage) : List ApiMessage :=
  if l.length > n then l.drop (l.length - n) else l

/-- Spec-side description of the output of `get_messages_for_api`, assembled
from `apiNonSystem`, `firstSystem` and `lastWindow`: cap the non-system
entries when `max_messages` is truthy, then prepend the first system
message's content when one exists. -/
def apiSpec (msgs : List Message) (mm : Option Nat) : List ApiMessage :=
  let api :=
    match mm with
    | some n => if n ≠ 0 then lastWindow n (apiNonSystem msgs) else apiNonSystem msgs
    | none => apiNonSystem msgs
  match firstSystem msgs with
  | some m => ApiMessage.mk "system" m.content :: api
  | none => api

/-- A fixed truthy timestamp used by concrete test messages. -/
def sampleTimestamp : String := "2024-01-01T00:00:00+00:00"

/-- A concrete message with the given role and content and no metadata. -/
def mkMsg (role : Option String) (content : String) : Message :=
  ⟨role, content, none, none, none, none, sampleTimestamp⟩

/-- The four-message store of the specification's API-export example, with the
custom role registered. -/
def sampleStore : MemCore :=
  ⟨[mkMsg (some "system") "S", mkMsg (some "user") "U1",
    mkMsg (some "assistant") "A1", mkMsg (some "customX") "C1"], 1000,
   DEFAULT_ROLES ++ ["customX"]⟩

/-- A freshly constructed store (no seed message, default capacity). -/
def freshStore : MemCore := ⟨[], 1000, DEFAULT_ROLES⟩

/-- A store on which the custom role "mod" has been registered. -/
def regStore : MemCore := ⟨[], 1000, DEFAULT_ROLES ++ ["mod"]⟩

/-- The scan loop of `get_messages_for_api`, characterized: starting from any
accumulator, it appends the non-system API entries and records the first
system message when none was recorded yet. -/
theorem foldl_apiScanStep (msgs : List Message) :
    ∀ acc : List ApiMessage × Option Message,
      msgs.foldl apiScanStep acc
        = (acc.1 ++ apiNonSystem msgs,
           match acc.2 with
           | some m => some m
           | none => firstSystem msgs) := by
  induction msgs with
  | nil =>
      intro acc
      obtain ⟨api, sys⟩ := acc
      cases sys <;> simp [apiNonSystem, firstSystem]
  | cons m rest ih =>
      intro acc
      obtain ⟨api, sys⟩ := acc
      rw [List.foldl_cons, ih]
      by_cases h : effectiveRole m = "system"
      · cases sys <;>
          simp [apiScanStep, h, apiNonSystem, firstSystem, List.filterMap_cons,
            List.find?_cons]
      · cases sys <;>
          simp [apiScanStep, h, apiNonSystem, firstSystem, List.filterMap_cons,
            List.find?_cons]

/-- Entries produced by the scan for non-system messages never carry the
role string "system". -/
theorem mem_apiNonSystem_role (msgs : List Message) (a : ApiMessage)
    (ha : a ∈ apiNonSystem msgs) : ¬ a.role = "system" := by
  simp only [apiNonSystem, List.mem_filterMap] at ha
  obtain ⟨m, -, hf⟩ := ha
  by_cases h : effectiveRole m = "system"
  · simp [h] at hf
  · simp only [h, if_false, Option.some.injEq] at hf
    subst hf
    exact h

/-- Any sublist of the non-system entries fails the duplicate-system check of
`get_messages_for_api`. -/
theorem no_system_any_eq_false (msgs : List Message) (l : List ApiMessage)
    (hl : ∀ a ∈ l, a ∈ apiNonSystem msgs) :
    l.any (fun msg => decide (msg.role = "system")) = false := by
  rw [List.any_eq_false]
  intro a ha
  simp only [decide_eq_true_eq]
  exact mem_apiNonSystem_role msgs a (hl a ha)

/-- Members of the last-n window are members of the original list. -/
theorem lastWindow_mem (n : Nat) (l : List ApiMessage) (a : ApiMessage)
    (ha : a ∈ lastWindow n l) : a ∈ l := by
  unfold lastWindow at ha
  split at ha
  · exact List.drop_subset _ _ ha
  · exact ha

/-- Length of the last-n window when the list is at least that long. -/
theorem lastWindow_length (n : Nat) (l : List ApiMessage) (h : n ≤ l.length) :
    (lastWindow n l).length = n := by
  unfold lastWindow
  split
  · rw [List.length_drop]
    omega
  · omega

/-- Characterization of `get_messages_for_api` in terms of the spec-side
definitions: the result is the (possibly capped) list of non-system entries,
with the first system message's content prepended when one exists. -/
theorem get_messages_for_api_eq (s : MemCore) (mm : Option Nat) :
    s.get_messages_for_api mm = apiSpec s.messages mm := by
  have key : ∀ L : List ApiMessage, (∀ a ∈ L, a ∈ apiNonSystem s.messages) →
      ((match firstSystem s.messages with
        | some m =>
            if L.any (fun msg => decide (msg.role = "system")) then L
            else ApiMessage.mk "system" m.content :: L
        | none => L)
       = (match firstSystem s.messages with
          | some m => ApiMessage.mk "system" m.content :: L
          | none => L)) := by
    intro L hL
    cases firstSystem s.messages with
    | none => rfl
    | some m => simp [no_system_any_eq_false s.messages L hL]
  unfold MemCore.get_messages_for_api apiSpec lastWindow
  simp only [foldl_apiScanStep, List.nil_append]
  cases mm with
  | none => exact key (apiNonSystem s.messages) (fun a ha => ha)
  | some n =>
      by_cases hn : n ≠ 0
      · simp only [if_pos hn]
        by_cases hlen : (apiNonSystem s.messages).length > n
        · simp only [if_pos hlen]
          exact key _ (fun a ha => List.drop_subset _ _ ha)
        · simp only [if_neg hlen]
          exact key _ (fun a ha => ha)
      · simp only [if_neg hn]
        exact key _ (fun a ha => ha)

/-- Dropping down to the last `n` elements ignores a head element when the
rest is already at least `n` long. -/
theorem drop_window_cons (x : Message) (l : List Message) (n : Nat) :
    (x :: l).drop ((x :: l).length - n) = l.drop (l.length - n) ∨ n > l.length := by
  by_cases h : n ≤ l.length
  · left
    have h1 : (x :: l).length - n = (l.length - n) + 1 := by
      simp only [List.length_cons]
      omega
    rw [h1, List.drop_succ_cons]
  · right
    omega

/-- Successful `add_message` on an allowed role, at capacity, with a nonempty
list: the head is evicted and the message appended. -/
theorem add_message_at_capacity (s : MemCore) (m : Message)
    (hr : roleAllowed s.roles m.role = true)
    (hcap : s.messages.length ≥ s.max_history_size)
    (hne : s.messages ≠ []) :
    s.add_message m
      = (⟨s.messages.tail ++ [m], s.max_history_size, s.roles⟩, none) := by
  unfold MemCore.add_message
  rw [if_pos hr, if_pos hcap, if_neg (by simp [List.isEmpty_iff, hne])]

/-- Successful `add_message` under capacity: the message is appended. -/
theorem add_message_under_capacity (s : MemCore) (m : Message)
    (hr : roleAllowed s.roles m.role = true)
    (hcap : ¬ s.messages.length ≥ s.max_history_size) :
    s.add_message m
      = (⟨s.messages ++ [m], s.max_history_size, s.roles⟩, none) := by
  unfold MemCore.add_message
  rw [if_pos hr, if_neg hcap]

/-- A fully successful run of `addAll` from a state within capacity ends with
exactly the last `max_history_size` elements of the total message sequence. -/
theorem addAll_ok (ms : List Message) :
    ∀ s t : MemCore,
      0 < s.max_history_size →
      s.messages.length ≤ s.max_history_size →
      addAll s ms = (t, none) →
      t.messages
          = (s.messages ++ ms).drop ((s.messages ++ ms).length - s.max_history_size)
      ∧ t.max_history_size = s.max_history_size := by
  induction ms with
  | nil =>
      intro s t hpos hlen h
      simp only [addAll, Prod.mk.injEq] at h
      obtain ⟨rfl, -⟩ := h
      constructor
      · rw [List.append_nil, Nat.sub_eq_zero_of_le hlen, List.drop_zero]
      · rfl
  | cons m rest ih =>
      intro s t hpos hlen h
      by_cases hr : roleAllowed s.roles m.role
      · by_cases hcap : s.messages.length ≥ s.max_history_size
        · have hne : s.messages ≠ [] := by
            intro he
            rw [he] at hcap
            simp only [List.length_nil] at hcap
            omega
          rw [addAll, add_message_at_capacity s m hr hcap hne] at h
          simp only at h
          have hlen1 :
              (s.messages.tail ++ [m]).length ≤ s.max_history_size := by
            rw [List.length_append, List.length_tail]
            simp only [List.length_cons, List.length_nil]
            omega
          obtain ⟨ht, hmax⟩ :=
            ih ⟨s.messages.tail ++ [m], s.max_history_size, s.roles⟩ t hpos hlen1 h
          refine ⟨?_, hmax⟩
          rw [ht]
          obtain ⟨x, l, hxl⟩ := List.exists_cons_of_ne_nil hne
          rw [hxl]
          simp only [List.tail_cons, List.cons_append, List.append_assoc,
            List.singleton_append]
          rcases drop_window_cons x (l ++ m :: rest) s.max_history_size with hw | hw
          · exact hw.symm
          · exfalso
            have hx : s.messages.length = l.length + 1 := by rw [hxl]; rfl
            rw [List.length_append, List.length_cons] at hw
            omega
        · rw [addAll, add_message_under_capacity s m hr hcap] at h
          simp only at h
          have hlen1 : (s.messages ++ [m]).length ≤ s.max_history_size := by
            rw [List.length_append]
            simp only [List.length_cons, List.length_nil]
            omega
          obtain ⟨ht, hmax⟩ :=
            ih ⟨s.messages ++ [m], s.max_history_size, s.roles⟩ t hpos hlen1 h
          refine ⟨?_, hmax⟩
          rw [ht]
          simp only [List.append_assoc, List.singleton_append]
      · have hadd : s.add_message m = (s, some (PyError.invalidRole m.role)) := by
          unfold MemCore.add_message
          rw [if_neg (by simp [hr])]
        rw [addAll, hadd] at h
        simp at h

/-- When `Message.__init__` raises, the raised exception is the
`AttributeError` of the default-timestamp branch. -/
theorem message_init_error (content : String) (role : Option String)
    (a b c d : Option String) (t : Option String) (e : PyError)
    (h : Message.init content role a b c d t = Except.error e) :
    e = PyError.attributeError := by
  unfold Message.init at h
  split at h
  · split at h
    · injection h with h
      exact h.symm
    · simp at h
  · injection h with h
    exact h.symm

/-- `add_message` never raises the not-registered `ValueError`; that raise
site exists only in `add_custom_message`. -/
theorem add_message_ne_roleNotRegistered (s : MemCore) (m : Message) (r : String) :
    (s.add_message m).2 ≠ some (PyError.roleNotRegistered r) := by
  unfold MemCore.add_message
  split
  · split
    · split <;> simp
    · simp
  · simp

/-- C1 (code-bug trace): `add_user_message` and `add_assistant_message` never
append the requested message — with the timestamp omitted the `Message`
constructor raises `AttributeError` from its default-timestamp branch, and
with a timestamp supplied the swapped constructor arguments put the content
string into the role field, so `add_message` raises the invalid-role
`ValueError` naming the content. The claim says both calls append one message
with role "user"/"assistant" and never fail the role check. -/
theorem add_user_assistant_message_code_bug :
    freshStore.add_user_message "hello" none none none none none
        = (freshStore, some PyError.attributeError)
    ∧ freshStore.add_user_message "hello" none none none none (some sampleTimestamp)
        = (freshStore, some (PyError.invalidRole (some "hello")))
    ∧ freshStore.add_assistant_message "hola" none none none none none
        = (freshStore, some PyError.attributeError)
    ∧ freshStore.add_assistant_message "hola" none none none none (some sampleTimestamp)
        = (freshStore, some (PyError.invalidRole (some "hola"))) :=
  ⟨rfl, rfl, rfl, rfl⟩

/-- C2: starting from a store freshly constructed with positive capacity, a
run of N successful `add_message` calls with N greater than the capacity
leaves exactly the last `max_history_size` added messages, in insertion
order. -/
theorem fifo_eviction_window (maxN : Nat) (ms : List Message) (t : MemCore)
    (hpos : 0 < maxN) (hn : ms.length > maxN)
    (h : addAll (MemCore.init none maxN).1 ms = (t, none)) :
    t.get_messages = ms.drop (ms.length - maxN)
    ∧ t.get_messages.length = maxN := by
  have h0 : (MemCore.init none maxN).1 = MemCore.mk [] maxN DEFAULT_ROLES := rfl
  rw [h0] at h
  obtain ⟨ht, -⟩ :=
    addAll_ok ms (MemCore.mk [] maxN DEFAULT_ROLES) t hpos (by simp) h
  simp only [List.nil_append] at ht
  refine ⟨ht, ?_⟩
  show t.messages.length = maxN
  rw [ht, List.length_drop]
  omega

/-- C2 witness: capacity 1, two user messages added; the second one is
retained. -/
theorem fifo_eviction_window_witness :
    (0 < 1
      ∧ ([mkMsg (some "user") "a", mkMsg (some "user") "b"] : List Message).length > 1)
    ∧ ((MemCore.mk [mkMsg (some "user") "b"] 1 DEFAULT_ROLES).get_messages
          = ([mkMsg (some "user") "a", mkMsg (some "user") "b"] : List Message).drop
              (([mkMsg (some "user") "a", mkMsg (some "user") "b"] : List Message).length - 1)
      ∧ (MemCore.mk [mkMsg (some "user") "b"] 1 DEFAULT_ROLES).get_messages.length = 1) :=
  ⟨⟨by decide, by decide⟩,
   fifo_eviction_window 1 [mkMsg (some "user") "a", mkMsg (some "user") "b"]
     (MemCore.mk [mkMsg (some "user") "b"] 1 DEFAULT_ROLES)
     (by decide) (by decide) (by decide)⟩

/-- C5 (code-bug trace): `reset` with a system-message argument first clears
the list and then raises from the internal add (the swapped `Message`
constructor with no timestamp), so the store ends empty with an error instead
of holding exactly one system message as the claim states. -/
theorem reset_code_bug :
    (MemCore.mk [mkMsg (some "user") "hi"] 1000 DEFAULT_ROLES).reset (some "new system")
      = (MemCore.mk [] 1000 DEFAULT_ROLES, some PyError.attributeError) := rfl

/-- C6 (code-bug trace): an operation that raises can leave a partial
mutation behind — this failing `reset` call raises and has already cleared
`messages`, so the state differs from the pre-call state. -/
theorem reset_partial_mutation_code_bug :
    ((MemCore.mk [mkMsg (some "assistant") "a1"] 7 DEFAULT_ROLES).reset (some "sys2")).2.isSome
        = true
    ∧ ((MemCore.mk [mkMsg (some "assistant") "a1"] 7 DEFAULT_ROLES).reset (some "sys2")).1.messages
        ≠ (MemCore.mk [mkMsg (some "assistant") "a1"] 7 DEFAULT_ROLES).messages := by
  refine ⟨rfl, ?_⟩
  decide

/-- C9 (code-bug trace): constructing a `Message` with the timestamp omitted
raises `AttributeError` (the default branch evaluates `datetime.timezone`
after `from datetime import datetime`); construction succeeds only when an
explicit truthy timestamp is supplied. The claim says construction never
fails and assigns an ISO-8601 UTC default. -/
theorem message_default_timestamp_code_bug :
    Message.init "hi" (some "user") none none none none none
        = Except.error PyError.attributeError
    ∧ Message.init "hi" (some "user") none none none none (some sampleTimestamp)
        = Except.ok (Message.mk (some "user") "hi" none none none none sampleTimestamp) :=
  ⟨rfl, rfl⟩

/-- C10: a `max_messages` argument of 0 is falsy in the truncation guard, so
it behaves exactly like an absent argument: no truncation happens. -/
theorem get_messages_for_api_zero_no_truncation (s : MemCore) :
    s.get_messages_for_api (some 0) = s.get_messages_for_api none := by
  rw [get_messages_for_api_eq, get_messages_for_api_eq]
  unfold apiSpec
  simp

/-- C3: on a store holding a system message, a user message, an assistant
message and a message with a registered custom role, the API export keeps
the non-system messages in order with every non-system, non-assistant role
normalized to "user", and pulls the (first) system message to the front. -/
theorem get_messages_for_api_normalization (S U1 A1 C1x X : String)
    (hX1 : X ≠ "system") (hX2 : X ≠ "assistant") :
    (MemCore.mk
        [mkMsg (some "system") S, mkMsg (some "user") U1,
         mkMsg (some "assistant") A1, mkMsg (some X) C1x]
        1000 (DEFAULT_ROLES ++ [X])).get_messages_for_api none
      = [ApiMessage.mk "system" S, ApiMessage.mk "user" U1,
         ApiMessage.mk "assistant" A1, ApiMessage.mk "user" C1x] := by
  have hu1 : ("user" : String) ≠ "system" := by decide
  have hu2 : ("user" : String) ≠ "assistant" := by decide
  have ha1 : ("assistant" : String) ≠ "system" := by decide
  rw [get_messages_for_api_eq]
  unfold apiSpec apiNonSystem firstSystem
  simp [mkMsg, effectiveRole, hX1, hX2, hu1, hu2, ha1, lastWindow]

/-- C3 witness: the concrete instance with custom role "customX". -/
theorem get_messages_for_api_normalization_witness :
    (("customX" : String) ≠ "system" ∧ ("customX" : String) ≠ "assistant")
    ∧ (MemCore.mk
        [mkMsg (some "system") "S", mkMsg (some "user") "U1",
         mkMsg (some "assistant") "A1", mkMsg (some "customX") "C1"]
        1000 (DEFAULT_ROLES ++ ["customX"])).get_messages_for_api none
      = [ApiMessage.mk "system" "S", ApiMessage.mk "user" "U1",
         ApiMessage.mk "assistant" "A1", ApiMessage.mk "user" "C1"] :=
  ⟨⟨by decide, by decide⟩,
   get_messages_for_api_normalization "S" "U1" "A1" "C1" "customX"
     (by decide) (by decide)⟩

/-- C4: for every store and positive cap, the export keeps the last
`max_messages` non-system entries (all of them when fewer), prepends the
first system message's content without counting it against the cap, and so
has length `max_messages + 1` whenever a system message exists and at least
`max_messages` non-system entries do. -/
theorem get_messages_for_api_cap (s : MemCore) (n : Nat) (hpos : 0 < n) :
    (s.get_messages_for_api (some n)
        = match firstSystem s.messages with
          | some m =>
              ApiMessage.mk "system" m.content :: lastWindow n (apiNonSystem s.messages)
          | none => lastWindow n (apiNonSystem s.messages))
    ∧ (∀ m, firstSystem s.messages = some m →
        n ≤ (apiNonSystem s.messages).length →
        (s.get_messages_for_api (some n)).length = n + 1) := by
  have hn : n ≠ 0 := by omega
  have hMain : s.get_messages_for_api (some n)
      = match firstSystem s.messages with
        | some m =>
            ApiMessage.mk "system" m.content :: lastWindow n (apiNonSystem s.messages)
        | none => lastWindow n (apiNonSystem s.messages) := by
    rw [get_messages_for_api_eq]
    unfold apiSpec
    simp [hn]
  refine ⟨hMain, ?_⟩
  intro m hm hle
  rw [hMain, hm]
  simp only [List.length_cons]
  rw [lastWindow_length n _ hle]

/-- C4 witness: the four-message sample store with cap 1 — length 2, system
first, then the last non-system entry. -/
theorem get_messages_for_api_cap_witness :
    0 < 1 ∧ sampleStore.get_messages_for_api (some 1)
        = [ApiMessage.mk "system" "S", ApiMessage.mk "user" "C1"] :=
  ⟨Nat.one_pos,
    ((get_messages_for_api_cap sampleStore 1 Nat.one_pos).1).trans (by decide)⟩

/-- C7 (code-bug trace): both raise-conditions hold as stated — `add_message`
raises the invalid-role error exactly when the message's role is not allowed,
and `add_custom_message` raises the not-registered error exactly when its
role argument is not allowed — but the rest of the claim fails: with the role
allowed (here the registered role "mod"), `add_custom_message` does not
append the message; it raises from the swapped `Message` constructor
(`AttributeError` without a timestamp, invalid-role naming the content string
with one). -/
theorem role_check_raise_conditions :
    (∀ (s : MemCore) (m : Message),
        (s.add_message m).2 = some (PyError.invalidRole m.role)
          ↔ ¬ roleAllowed s.roles m.role = true)
    ∧ (∀ (s : MemCore) (role content : String) (a b c d t : Option String),
        (s.add_custom_message role content a b c d t).2
            = some (PyError.roleNotRegistered role)
          ↔ ¬ role ∈ s.roles)
    ∧ regStore.add_custom_message "mod" "hello" none none none none none
        = (regStore, some PyError.attributeError)
    ∧ regStore.add_custom_message "mod" "hello" none none none none (some sampleTimestamp)
        = (regStore, some (PyError.invalidRole (some "hello"))) := by
  refine ⟨?_, ?_, rfl, rfl⟩
  · intro s m
    constructor
    · intro h hr
      unfold MemCore.add_message at h
      rw [if_pos hr] at h
      split at h
      · split at h <;> simp at h
      · simp at h
    · intro hr
      unfold MemCore.add_message
      rw [if_neg hr]
  · intro s role content a b c d t
    constructor
    · intro h hmem
      unfold MemCore.add_custom_message at h
      rw [if_pos hmem] at h
      unfold MemCore._add_message at h
      rcases hinit : Message.init role (some content) a b c d t with e | msg
      · rw [hinit] at h
        simp only at h
        rw [message_init_error role (some content) a b c d t e hinit] at h
        simp at h
      · rw [hinit] at h
        simp only at h
        exact add_message_ne_roleNotRegistered s msg role h
    · intro hmem
      unfold MemCore.add_custom_message
      rw [if_neg hmem]

/-- C8: `register_role` raises the invalid-operation error exactly for the
three default roles; for any other string it succeeds, adds the role, leaves
messages and capacity untouched, re-registering it is a silent no-op, and a
subsequent `add_message` with that role passes the role check (it cannot
raise the invalid-role error). -/
theorem register_role_spec (s : MemCore) (r : String) :
    ((s.register_role r).2 = some (PyError.invalidOperation r) ↔ r ∈ DEFAULT_ROLES)
    ∧ (r ∉ DEFAULT_ROLES →
        (s.register_role r).2 = none
        ∧ r ∈ (s.register_role r).1.roles
        ∧ (s.register_role r).1.messages = s.messages
        ∧ (s.register_role r).1.max_history_size = s.max_history_size
        ∧ (s.register_role r).1.register_role r = ((s.register_role r).1, none))
    ∧ (r ∉ DEFAULT_ROLES → ∀ m : Message, m.role = some r →
        ((s.register_role r).1.add_message m).2 ≠ some (PyError.invalidRole m.role)) := by
  by_cases hd : r ∈ DEFAULT_ROLES
  · refine ⟨?_, fun h => absurd hd h, fun h => absurd hd h⟩
    unfold MemCore.register_role
    rw [if_pos hd]
    simp [hd]
  · have hreg : s.register_role r
        = (MemCore.mk s.messages s.max_history_size
            (if r ∈ s.roles then s.roles else s.roles ++ [r]), none) := by
      unfold MemCore.register_role
      rw [if_neg hd]
    have hmem1 : r ∈ (if r ∈ s.roles then s.roles else s.roles ++ [r]) := by
      by_cases hr : r ∈ s.roles
      · simp [hr]
      · simp [hr]
    have hmem : r ∈ (s.register_role r).1.roles := by
      rw [hreg]
      exact hmem1
    refine ⟨?_, fun _ => ⟨by rw [hreg], hmem, by rw [hreg], by rw [hreg], ?_⟩,
      fun _ m hm => ?_⟩
    · rw [hreg]
      simp [hd]
    · rw [hreg]
      dsimp only
      unfold MemCore.register_role
      rw [if_neg hd, if_pos hmem1]
    · unfold MemCore.add_message
      have hallow : roleAllowed (s.register_role r).1.roles m.role = true := by
        rw [hm]
        unfold roleAllowed
        simpa using hmem
      rw [if_pos hallow]
      split
      · split <;> simp
      · simp

/-- C8 witness: registering the fresh role "moderator" succeeds, the role is
in the set afterwards, and an `add_message` with that role does not raise the
invalid-role error. -/
theorem register_role_spec_witness :
    ("moderator" ∉ DEFAULT_ROLES)
    ∧ (freshStore.register_role "moderator").2 = none
    ∧ "moderator" ∈ (freshStore.register_role "moderator").1.roles
    ∧ ((freshStore.register_role "moderator").1.add_message
          (mkMsg (some "moderator") "m1")).2
        ≠ some (PyError.invalidRole (mkMsg (some "moderator") "m1").role) :=
  ⟨by decide,
   ((register_role_spec freshStore "moderator").2.1 (by decide)).1,
   ((register_role_spec freshStore "moderator").2.1 (by decide)).2.1,
   (register_role_spec freshStore "moderator").2.2 (by decide)
     (mkMsg (some "moderator") "m1") rfl⟩
